import Mathlib

/-
Verification of the reconciliation/recommendation engine of
src/core/recommender.py (function apply_recommendations and its helpers).

The engine is embedded shallowly: pandas rows become a `ReviewRow`
structure, quantities are integers (the source works on floats that hold
whole counts), and the single in-place pass over a group is split into
pure functions computing, in the source order, exactly the values the
source computes.  Row-level mutations of the shared dataframe are
rendered as a per-row output record `RowOut` whose fields mirror the
recommendation columns added at lines 90-101 of the source.
-/

namespace CycleCount

/-- One Review_Lines record as consumed by `apply_recommendations`
(required columns, src/core/recommender.py lines 71-78).  `missingMaster`
keeps the source's "Y"/"N" encoding of the `Missing Location Master`
column. -/
structure ReviewRow where
  whs : String
  item : String
  batchLot : String
  defaultLocation : String
  location : String
  systemQty : Int
  countQty : Int
  varianceQty : Int
  locationType : String
  allocationCategory : String
  missingMaster : String
deriving Repr, DecidableEq

/-- The recommendation columns added to each row (source lines 90-101),
with the placeholder values the source writes before processing. -/
structure RowOut where
  isDefault : Bool := false
  isSecondary : Bool := false
  recommendationType : String := ""
  recommendedQty : Int := 0
  fromLocation : String := ""
  toLocation : String := ""
  remainingAdjustmentQty : Int := 0
  setLocationQtyTo : Option Int := none
  reason : String := ""
  confidence : String := "Med"
  severity : Nat := 0
  groupHeadline : String := ""
deriving Repr, DecidableEq

/-- The frozen dataclass `TransferSuggestion` (source lines 9-19). -/
structure TransferSuggestion where
  whs : String
  item : String
  batchLot : String
  qty : Int
  fromLocation : String
  toLocation : String
  reason : String
  confidence : String
  severity : Nat
deriving Repr, DecidableEq

/-- One row of the `group_summary` output (source lines 125-141, 168-182,
210-224 and 516-532).  `Option` fields are `None` in the source on the
terminal paths. -/
structure GroupSummary where
  whs : String
  item : String
  batchLot : String
  defaultLocation : String
  systemTotal : Int
  countTotal : Int
  netVariance : Int
  sysST01 : Int
  defaultSystemAfter : Option Int
  defaultCount : Option Int
  flags : String
  headline : String
  remainingAdjustmentQty : Option Int
  confidence : String
  severity : Nat
deriving Repr, DecidableEq

/-- Everything one iteration of the group loop contributes to the three
outputs of `apply_recommendations`. -/
structure GroupResult where
  rows : List (ReviewRow × RowOut)
  transfers : List TransferSuggestion
  summary : GroupSummary
deriving Repr, DecidableEq

/-- The triple returned by `apply_recommendations`. -/
structure ApplyResult where
  rows : List (ReviewRow × RowOut)
  transfers : List TransferSuggestion
  groups : List GroupSummary
deriving Repr, DecidableEq

/-- Python `str.upper()` over the character list (ASCII), written so the
kernel can evaluate it. -/
def upperStr (s : String) : String := ⟨s.data.map Char.toUpper⟩

/-- Python `str.lower()` over the character list (ASCII). -/
def lowerStr (s : String) : String := ⟨s.data.map Char.toLower⟩

/-- Python `str.strip()`: drop leading and trailing whitespace. -/
def trimStr (s : String) : String :=
  ⟨((s.data.dropWhile Char.isWhitespace).reverse.dropWhile Char.isWhitespace).reverse⟩

/-- `_is_default_eligible` (source lines 22-25): location type unsecured
and allocation category available, after strip/lower normalization. -/
def isDefaultEligible (locType allocCat : String) : Bool :=
  lowerStr (trimStr locType) == "unsecured" && lowerStr (trimStr allocCat) == "available"

/-- The `order` dictionary of `_confidence_cap` (source line 29); an
unknown label defaults to 1 exactly as `order.get(conf, 1)` does. -/
def confOrder (c : String) : Nat :=
  if c = "Low" then 0 else if c = "High" then 2 else 1

/-- The inverse dictionary of `_confidence_cap` (source line 30). -/
def confInv (n : Nat) : String :=
  if n = 0 then "Low" else if n = 1 then "Med" else "High"

/-- `_confidence_cap` (source lines 28-31). -/
def confidenceCap (conf cap : String) : String :=
  confInv (min (confOrder conf) (confOrder cap))

/-- `_group_headline` (source lines 34-56). -/
def groupHeadlineStr (missingMaster moveRecount securedVariance defaultEmpty : Bool)
    (remainingAdj : Int) (hasTransfers : Bool) : String :=
  if missingMaster then "Investigate: location not in master"
  else if moveRecount then "Move + recount required (include default)"
  else if securedVariance then "Investigate: secured location variance"
  else if defaultEmpty then "Action needed: default counted zero (verify on-hand)"
  else if remainingAdj ≠ 0 then
    let direction := if remainingAdj > 0 then "up" else "down"
    let qty := remainingAdj.natAbs
    if hasTransfers then "Adjust " ++ direction ++ " " ++ toString qty ++ " after transfers"
    else "Adjust " ++ direction ++ " " ++ toString qty
  else if hasTransfers then "Transfers only (resolve via default)"
  else "No variance"

/-- The movable allocation categories of the secondary loop (source
lines 260-264 and 317-321). -/
def secCanMove (allocCat : String) : Bool :=
  let a := lowerStr (trimStr allocCat)
  a == "available" || a == "available upon request" || a == "available_on_request"

/-- What one secondary row contributes: its row output, its addition to
`transfers_in_default`, whether it sets the `move_recount` flag, and the
transfer suggestions it appends. -/
structure SecOutcome where
  out : RowOut
  tin : Int
  moveRecount : Bool
  suggestions : List TransferSuggestion
deriving Repr, DecidableEq

/-- The body of the secondary reconciliation loop (source lines 241-382)
for one row.  `securedVar` and `defaultCount` are the group-level values
computed before the loop; neither is modified inside it, so each row's
outcome is a pure function of the row and these values. -/
def reconcileSecondary (useTransfers : Bool) (whs item lot defaultLoc : String)
    (securedVar : Bool) (defaultCount : Int) (r : ReviewRow) : SecOutcome :=
  let delta := r.countQty - r.systemQty
  let conf := if securedVar then "Med" else "High"
  if delta > 0 then
    let qty := delta
    if secCanMove r.allocationCategory then
      { out := { isSecondary := true, recommendationType := "INVESTIGATE",
                 recommendedQty := qty,
                 reason := "MOVE + RECOUNT: secondary > system and location is movable (AVAILABLE / AVAILABLE UPON REQUEST). Physically move excess to default, then recount including default.",
                 confidence := conf, severity := 80 },
        tin := qty, moveRecount := true,
        suggestions :=
          if useTransfers then
            [{ whs := whs, item := item, batchLot := lot, qty := qty,
               fromLocation := r.location, toLocation := defaultLoc,
               reason := "Transfer enabled (alternative to adjustment). Planned physical move to default before recount.",
               confidence := conf, severity := 80 }]
          else [] }
    else
      { out := { isSecondary := true, recommendationType := "INVESTIGATE",
                 recommendedQty := qty,
                 reason := "RECOUNT REQUIRED: secondary > system but location is NOT movable. Recount this location and default to resolve.",
                 confidence := conf, severity := 85 },
        tin := 0, moveRecount := true, suggestions := [] }
  else if delta < 0 then
    let qty := -delta
    if secCanMove r.allocationCategory ∧ defaultCount = 0 then
      { out := { isSecondary := true, recommendationType := "INVESTIGATE",
                 recommendedQty := qty,
                 reason := "MOVE + RECOUNT: secondary < system and default is not verified (count 0). Possible replenishment from overstock into default. Recount including default before any adjustment.",
                 confidence := conf, severity := 80 },
        tin := qty, moveRecount := true,
        suggestions :=
          if useTransfers then
            [{ whs := whs, item := item, batchLot := lot, qty := qty,
               fromLocation := r.location, toLocation := defaultLoc,
               reason := "Transfer enabled (alternative). Possible overstock replenished default; recount required.",
               confidence := conf, severity := 80 }]
          else [] }
    else
      if useTransfers then
        { out := { isSecondary := true, recommendationType := "TRANSFER",
                   recommendedQty := qty, fromLocation := r.location,
                   toLocation := defaultLoc,
                   reason := "Secondary < system; transfer to default to reconcile (adjustment alternative).",
                   confidence := conf, severity := 90 },
          tin := qty, moveRecount := false,
          suggestions :=
            [{ whs := whs, item := item, batchLot := lot, qty := qty,
               fromLocation := r.location, toLocation := defaultLoc,
               reason := "Secondary < system; move system qty out so secondary is accurate.",
               confidence := conf, severity := 90 }] }
      else
        { out := { isSecondary := true, recommendationType := "ADJUST",
                   recommendedQty := qty, setLocationQtyTo := some r.countQty,
                   reason := "Secondary < system; adjust down at this location.",
                   confidence := conf, severity := 90 },
          tin := 0, moveRecount := false, suggestions := [] }
  else
    { out := { isSecondary := true, recommendationType := "NO_ACTION",
               reason := "Secondary matches system.",
               confidence := "High", severity := 0 },
      tin := 0, moveRecount := false, suggestions := [] }

/-- Flag `missing_master` (source line 146). -/
def missingMasterOf (rows : List ReviewRow) : Bool :=
  rows.any (fun r => r.missingMaster == "Y")

/-- Flag `secured_variance` (source lines 190-193): some row of the group
has location type secured (after strip/lower) and a nonzero input
`VarianceQty`. -/
def securedVarOf (rows : List ReviewRow) : Bool :=
  rows.any (fun r => lowerStr (trimStr r.locationType) == "secured" && r.varianceQty != 0)

/-- `sys_st01` (source line 196): total system quantity booked at the
buffer location ST01. -/
def sysST01Of (rows : List ReviewRow) : Int :=
  ((rows.filter (fun r => r.location == "ST01")).map (fun r => r.systemQty)).sum

/-- The authoritative default location of a group (source lines 152-156):
the first nonblank `DefaultLocation` value, if any. -/
def resolveDefaultLoc (rows : List ReviewRow) : Option String :=
  ((rows.filter (fun r => r.defaultLocation != "")).head?).map (fun r => r.defaultLocation)

/-- `default_rows` (source line 199). -/
def defaultRowsOf (rows : List ReviewRow) (dl : String) : List ReviewRow :=
  rows.filter (fun r => r.location == dl)

/-- `default_system` (source line 227). -/
def defaultSystemOf (rows : List ReviewRow) (dl : String) : Int :=
  ((defaultRowsOf rows dl).map (fun r => r.systemQty)).sum

/-- `default_count` (source line 228). -/
def defaultCountOf (rows : List ReviewRow) (dl : String) : Int :=
  ((defaultRowsOf rows dl).map (fun r => r.countQty)).sum

/-- `default_eligible` (source lines 230-233), from the first default
row's master metadata. -/
def defaultEligibleOf (rows : List ReviewRow) (dl : String) : Bool :=
  match (defaultRowsOf rows dl).head? with
  | some d => isDefaultEligible d.locationType d.allocationCategory
  | none => false

/-- `secondary` (source line 239): every row that is neither the default
location nor the buffer location ST01. -/
def secRowsOf (rows : List ReviewRow) (dl : String) : List ReviewRow :=
  rows.filter (fun r => r.location != dl && r.location != "ST01")

/-- The outcomes of the secondary loop (source lines 241-382), one per
secondary row and independent of each other. -/
def secOutsOf (ut : Bool) (whs item lot : String) (rows : List ReviewRow) (dl : String) :
    List SecOutcome :=
  (secRowsOf rows dl).map
    (reconcileSecondary ut whs item lot dl (securedVarOf rows) (defaultCountOf rows dl))

/-- `transfers_in_default` after the secondary loop (source lines 236,
271, 328, 353). -/
def tinOf (ut : Bool) (whs item lot : String) (rows : List ReviewRow) (dl : String) : Int :=
  ((secOutsOf ut whs item lot rows dl).map (fun o => o.tin)).sum

/-- `transfers_out_default` (source line 237) is initialized to 0.0 and
never incremented anywhere in `apply_recommendations`. -/
def transfersOutDefault : Int := 0

/-- The group flag `move_recount` after the secondary loop (source
lines 267 and 327). -/
def moveRecountOf (ut : Bool) (whs item lot : String) (rows : List ReviewRow) (dl : String) :
    Bool :=
  (secOutsOf ut whs item lot rows dl).any (fun o => o.moveRecount)

/-- The transfer suggestions appended by the secondary loop for this
group (source lines 284-293, 341-348, 354-360). -/
def suggestionsOf (ut : Bool) (whs item lot : String) (rows : List ReviewRow) (dl : String) :
    List TransferSuggestion :=
  ((secOutsOf ut whs item lot rows dl).map (fun o => o.suggestions)).flatten

/-- `default_after` (source line 385). -/
def defaultAfterOf (ut : Bool) (whs item lot : String) (rows : List ReviewRow) (dl : String) :
    Int :=
  defaultSystemOf rows dl + tinOf ut whs item lot rows dl - transfersOutDefault

/-- Whether the `default_empty` flag is set (source lines 419-440): the
default counted zero and the buffer escape hatch (eligible default with
ST01 stock, lines 423-434) does not apply. -/
def defaultEmptyOf (rows : List ReviewRow) (dl : String) : Bool :=
  defaultCountOf rows dl == 0 && !(defaultEligibleOf rows dl && sysST01Of rows > 0)

/-- `remaining_adj` as finally determined (source lines 419-484): zero on
both default-counted-zero branches; the ST01 min/max band when the
default is eligible; the direct comparison otherwise. -/
def remainingOf (ut : Bool) (whs item lot : String) (rows : List ReviewRow) (dl : String) :
    Int :=
  if defaultCountOf rows dl = 0 then 0
  else if defaultEligibleOf rows dl then
    if defaultCountOf rows dl < defaultAfterOf ut whs item lot rows dl then
      defaultCountOf rows dl - defaultAfterOf ut whs item lot rows dl
    else if defaultCountOf rows dl > defaultAfterOf ut whs item lot rows dl + sysST01Of rows then
      defaultCountOf rows dl - (defaultAfterOf ut whs item lot rows dl + sysST01Of rows)
    else 0
  else defaultCountOf rows dl - defaultAfterOf ut whs item lot rows dl

/-- `group_conf` after the flag ladder (source lines 404-440): capped to
Med by missing-master, secured-variance and default-empty; nothing else
touches it (in particular `move_recount` does not). -/
def groupConfOf (missingMaster securedVar defaultEmpty : Bool) : String :=
  let c1 := if missingMaster then confidenceCap "High" "Med" else "High"
  let c2 := if securedVar then confidenceCap c1 "Med" else c1
  if defaultEmpty then confidenceCap c2 "Med" else c2

/-- The group confidence of a fully processed group. -/
def groupConfG (rows : List ReviewRow) (dl : String) : String :=
  groupConfOf (missingMasterOf rows) (securedVarOf rows) (defaultEmptyOf rows dl)

/-- `group_sev` before the movement floor (source lines 405-487): raised
to 100 by missing-master, 95 by secured-variance, 85 by default-empty,
and 80 when a nonzero remaining adjustment is proposed. -/
def groupSevOf (ut : Bool) (whs item lot : String) (rows : List ReviewRow) (dl : String) :
    Nat :=
  let s1 : Nat := if missingMasterOf rows then 100 else 0
  let s2 : Nat := if securedVarOf rows then max s1 95 else s1
  if defaultEmptyOf rows dl then max s2 85
  else if defaultCountOf rows dl ≠ 0 ∧ remainingOf ut whs item lot rows dl ≠ 0 then max s2 80
  else s2

/-- `has_moves` (source lines 505-506): a transfer suggestion was emitted
for this group, or the in/out accumulators are nonzero. -/
def hasMovesOf (ut : Bool) (whs item lot : String) (rows : List ReviewRow) (dl : String) :
    Bool :=
  !(suggestionsOf ut whs item lot rows dl).isEmpty
    || tinOf ut whs item lot rows dl != 0 || transfersOutDefault != 0

/-- The group headline (source line 507). -/
def headlineOf (ut : Bool) (whs item lot : String) (rows : List ReviewRow) (dl : String) :
    String :=
  groupHeadlineStr (missingMasterOf rows) (moveRecountOf ut whs item lot rows dl)
    (securedVarOf rows) (defaultEmptyOf rows dl)
    (remainingOf ut whs item lot rows dl) (hasMovesOf ut whs item lot rows dl)

/-- `group_sev` after the movement floor of 60 (source line 508). -/
def groupSevFinalOf (ut : Bool) (whs item lot : String) (rows : List ReviewRow) (dl : String) :
    Nat :=
  max (groupSevOf ut whs item lot rows dl)
    (if hasMovesOf ut whs item lot rows dl then 60 else 0)

/-- The `Flags` string of the group summary (source lines 409, 414, 438,
527): note the `move_recount` flag is never appended to it. -/
def flagsStrOf (rows : List ReviewRow) (dl : String) : String :=
  String.intercalate ","
    ((if missingMasterOf rows then ["MissingMaster"] else []) ++
     (if securedVarOf rows then ["SecuredVariance"] else []) ++
     (if defaultEmptyOf rows dl then ["DefaultEmpty"] else []))

/-- The final output of a default row (source lines 387-398 overwritten
by 419-503): the move-recount pre-marking survives only through the
severity max, because every branch of the default reconciliation
unconditionally re-marks the default rows afterwards. -/
def defaultRowOut (ut : Bool) (whs item lot : String) (rows : List ReviewRow) (dl : String)
    (r : ReviewRow) : RowOut :=
  let preSev : Nat := if moveRecountOf ut whs item lot rows dl then 80 else 0
  if defaultCountOf rows dl = 0 then
    if defaultEligibleOf rows dl ∧ sysST01Of rows > 0 then
      { isDefault := true, recommendationType := "NO_ACTION",
        reason := "Default location shows 0, but ST01 shows inventory. Assume default may be physically full; no default-empty issue.",
        confidence := groupConfG rows dl, severity := max preSev 25 }
    else
      { isDefault := true, recommendationType := "INVESTIGATE",
        reason := "Default counted 0 while system shows inventory; verify on-hand and adjust if empty.",
        confidence := groupConfG rows dl, severity := max preSev 85 }
  else if remainingOf ut whs item lot rows dl ≠ 0 then
    { isDefault := true, recommendationType := "ADJUST",
      setLocationQtyTo := some r.countQty,
      remainingAdjustmentQty := remainingOf ut whs item lot rows dl,
      recommendedQty := (remainingOf ut whs item lot rows dl).natAbs,
      reason := "Default reconciliation after transfers; adjust remaining variance.",
      confidence := groupConfG rows dl,
      severity := max preSev (groupSevOf ut whs item lot rows dl) }
  else
    { isDefault := true, recommendationType := "NO_ACTION",
      reason := "Default reconciliation after transfers; no adjustment required.",
      confidence := groupConfG rows dl,
      severity := max preSev
        (if tinOf ut whs item lot rows dl != 0 || transfersOutDefault != 0 then 60 else 0) }

/-- The group-level writes applied to every row at the end of the main
path (source lines 510-514): headline, the group remaining adjustment,
the replace of blank confidences by the group confidence, and the
severity clip at the group severity. -/
def finalizeRow (headline : String) (remaining : Int) (groupConf : String)
    (groupSevFinal : Nat) (o : RowOut) : RowOut :=
  { o with groupHeadline := headline,
           remainingAdjustmentQty := remaining,
           confidence := if o.confidence = "" then groupConf else o.confidence,
           severity := max o.severity groupSevFinal }

/-- The final output of one row of a fully processed primary-warehouse
group: default rows through the default reconciliation, ST01 rows only
marked secondary (they are excluded from the loop at source line 239),
all other rows through the secondary loop, then the group-level writes. -/
def mainRowOut (ut : Bool) (whs item lot : String) (rows : List ReviewRow) (dl : String)
    (r : ReviewRow) : RowOut :=
  finalizeRow (headlineOf ut whs item lot rows dl) (remainingOf ut whs item lot rows dl)
    (groupConfG rows dl) (groupSevFinalOf ut whs item lot rows dl)
    (if r.location = dl then defaultRowOut ut whs item lot rows dl r
     else if r.location = "ST01" then { isSecondary := true }
     else (reconcileSecondary ut whs item lot dl (securedVarOf rows)
             (defaultCountOf rows dl) r).out)

/-- The full main path of the group loop (source lines 144-532). -/
def mainResult (ut : Bool) (whs item lot : String) (rows : List ReviewRow) (dl : String) :
    GroupResult :=
  { rows := rows.map (fun r => (r, mainRowOut ut whs item lot rows dl r)),
    transfers := suggestionsOf ut whs item lot rows dl,
    summary :=
    { whs := whs, item := item, batchLot := lot, defaultLocation := dl,
      systemTotal := (rows.map (fun r => r.systemQty)).sum,
      countTotal := (rows.map (fun r => r.countQty)).sum,
      netVariance := (rows.map (fun r => r.varianceQty)).sum,
      sysST01 := sysST01Of rows,
      defaultSystemAfter := some (defaultAfterOf ut whs item lot rows dl),
      defaultCount := some (defaultCountOf rows dl),
      flags := flagsStrOf rows dl,
      headline := headlineOf ut whs item lot rows dl,
      remainingAdjustmentQty := some (remainingOf ut whs item lot rows dl),
      confidence := groupConfG rows dl,
      severity := groupSevFinalOf ut whs item lot rows dl } }

/-- The warehouse guardrail path (source lines 116-142): every row of a
non-WHS-50 group becomes NO_ACTION with confidence High and severity 0. -/
def guardrailResult (whs item lot : String) (rows : List ReviewRow) : GroupResult :=
  { rows := rows.map (fun r => (r,
      { recommendationType := "NO_ACTION",
        reason := "Warehouse is not 50; this tool does not auto-recommend transfers/default updates outside WHS 50.",
        confidence := "High", severity := 0,
        groupHeadline := "No action (non-WHS 50)" })),
    transfers := [],
    summary :=
    { whs := whs, item := item, batchLot := lot,
      defaultLocation :=
        if rows.any (fun r => r.defaultLocation != "") then
          ((rows.head?).map (fun r => r.defaultLocation)).getD ""
        else "",
      systemTotal := (rows.map (fun r => r.systemQty)).sum,
      countTotal := (rows.map (fun r => r.countQty)).sum,
      netVariance := (rows.map (fun r => r.varianceQty)).sum,
      sysST01 := sysST01Of rows,
      defaultSystemAfter := none, defaultCount := none,
      flags := "NonWHS50", headline := "No action (non-WHS 50)",
      remainingAdjustmentQty := some 0, confidence := "High", severity := 0 } }

/-- The blank-default terminal path (source lines 157-183). -/
def defaultMissingResult (whs item lot : String) (rows : List ReviewRow) : GroupResult :=
  let sev : Nat := if missingMasterOf rows then 100 else 85
  { rows := rows.map (fun r => (r,
      { recommendationType := "INVESTIGATE",
        reason := "DefaultLocation is blank; cannot reconcile group automatically.",
        confidence := "Low", severity := sev,
        groupHeadline := "Investigate: default location missing" })),
    transfers := [],
    summary :=
    { whs := whs, item := item, batchLot := lot, defaultLocation := "",
      systemTotal := (rows.map (fun r => r.systemQty)).sum,
      countTotal := (rows.map (fun r => r.countQty)).sum,
      netVariance := (rows.map (fun r => r.varianceQty)).sum,
      sysST01 := sysST01Of rows,
      defaultSystemAfter := none, defaultCount := none,
      flags := "DefaultMissing", headline := "Investigate: default location missing",
      remainingAdjustmentQty := none, confidence := "Low", severity := sev } }

/-- The default-row-missing terminal path (source lines 200-225). -/
def defaultRowMissingResult (whs item lot : String) (rows : List ReviewRow) (dl : String) :
    GroupResult :=
  { rows := rows.map (fun r => (r,
      { isDefault := r.location = dl, isSecondary := !(r.location = dl : Bool),
        recommendationType := "INVESTIGATE",
        reason := "DefaultLocation not present in recount lines.",
        confidence := "Low", severity := 85,
        groupHeadline := "Investigate: default row missing" })),
    transfers := [],
    summary :=
    { whs := whs, item := item, batchLot := lot, defaultLocation := dl,
      systemTotal := (rows.map (fun r => r.systemQty)).sum,
      countTotal := (rows.map (fun r => r.countQty)).sum,
      netVariance := (rows.map (fun r => r.varianceQty)).sum,
      sysST01 := sysST01Of rows,
      defaultSystemAfter := none, defaultCount := none,
      flags := "DefaultRowMissing", headline := "Investigate: default row missing",
      remainingAdjustmentQty := none, confidence := "Low", severity := 85 } }

/-- One iteration of the group loop of `apply_recommendations` (source
lines 113-532): the warehouse guardrail, the two terminal data-quality
paths, then the full reconciliation. -/
def processGroup (ut : Bool) (whs item lot : String) (rows : List ReviewRow) : GroupResult :=
  if trimStr whs ≠ "50" then guardrailResult whs item lot rows
  else
    match resolveDefaultLoc rows with
    | none => defaultMissingResult whs item lot rows
    | some dl =>
      if defaultRowsOf rows dl = [] then defaultRowMissingResult whs item lot rows dl
      else mainResult ut whs item lot rows dl

/-- The transfer-mode normalization and validation (source lines
103-106): strip and uppercase, an empty result falls back to "TRANSFER"
via Python string truthiness, anything other than TRANSFER or ADJUST
raises ValueError.  Returns `use_transfers`. -/
def parseTransferMode (transferMode : String) : Except String Bool :=
  let m0 := upperStr (trimStr transferMode)
  let m := if m0 = "" then "TRANSFER" else m0
  if m = "TRANSFER" then Except.ok true
  else if m = "ADJUST" then Except.ok false
  else Except.error "Unsupported transfer_mode. Use TRANSFER or ADJUST."

/-- The key-field normalization applied to the working copy (source
lines 83-87). -/
def normalizeRow (r : ReviewRow) : ReviewRow :=
  { r with whs := trimStr r.whs, item := trimStr r.item, batchLot := trimStr r.batchLot,
           location := upperStr (trimStr r.location),
           defaultLocation := upperStr (trimStr r.defaultLocation) }

/-- Group keys in order of first appearance, as pandas
`groupby(["Whs", "Item", "Batch/lot"], sort=False)` yields them
(source lines 112-113). -/
def keysInOrder (rows : List ReviewRow) : List (String × String × String) :=
  rows.foldl
    (fun ks r =>
      let k := (r.whs, r.item, r.batchLot)
      if k ∈ ks then ks else ks ++ [k]) []

/-- The group loop and output assembly of `apply_recommendations`
(source lines 108-557) once the mode is validated. -/
def assembleResult (ut : Bool) (reviewLines : List ReviewRow) : ApplyResult :=
  let dfRows := reviewLines.map normalizeRow
  let results := (keysInOrder dfRows).map (fun k =>
    processGroup ut k.1 k.2.1 k.2.2
      (dfRows.filter (fun r => r.whs == k.1 && r.item == k.2.1 && r.batchLot == k.2.2)))
  { rows := (results.map (fun g => g.rows)).flatten,
    transfers := if ut then (results.map (fun g => g.transfers)).flatten else [],
    groups := results.map (fun g => g.summary) }

/-- `apply_recommendations` (source lines 58-557): validate the mode,
then process every (Whs, Item, Batch/lot) group. -/
def applyRecommendations (reviewLines : List ReviewRow) (transferMode : String) :
    Except String ApplyResult :=
  match parseTransferMode transferMode with
  | Except.error e => Except.error e
  | Except.ok ut => Except.ok (assembleResult ut reviewLines)

/-- Sum of the secondary deltas of a group, the quantity named in the
net-zero balancing law of the specification. -/
def secondaryDeltaSumOf (rows : List ReviewRow) (dl : String) : Int :=
  ((secRowsOf rows dl).map (fun r => r.countQty - r.systemQty)).sum

/-- Convenience constructor for concrete test records. -/
def mkRow (whs item loc dl : String) (sys cnt va : Int) (lt ac mm : String) : ReviewRow :=
  { whs := whs, item := item, batchLot := "", defaultLocation := dl, location := loc,
    systemQty := sys, countQty := cnt, varianceQty := va,
    locationType := lt, allocationCategory := ac, missingMaster := mm }

/-- Concrete group: eligible default A01 counted as booked, one secured
secondary B01 counted above system. -/
def c1xRows : List ReviewRow :=
  [mkRow "50" "I1" "A01" "A01" 10 10 0 "unsecured" "available" "N",
   mkRow "50" "I1" "B01" "A01" 5 8 3 "secured" "restricted" "N"]

/-- Same shape as `c1xRows`, used to instantiate the amended claim. -/
def c1wRows : List ReviewRow :=
  [mkRow "50" "I1W" "A01" "A01" 10 10 0 "unsecured" "available" "N",
   mkRow "50" "I1W" "B01" "A01" 5 8 3 "secured" "restricted" "N"]

/-- Concrete group whose default-location value is the buffer code ST01
itself, counted below system. -/
def c2xRows : List ReviewRow :=
  [mkRow "50" "I2" "ST01" "ST01" 20 10 (-10) "unsecured" "available" "N"]

/-- Concrete group with default A01 and a buffer row ST01. -/
def c2wRows : List ReviewRow :=
  [mkRow "50" "I2W" "A01" "A01" 10 10 0 "unsecured" "available" "N",
   mkRow "50" "I2W" "ST01" "A01" 4 0 0 "unsecured" "available" "N"]

/-- Scenario A of the specification: verified default, movable secondary
overage, no buffer stock. -/
def c3xRows : List ReviewRow :=
  [mkRow "50" "I3" "A01" "A01" 10 10 0 "unsecured" "available" "N",
   mkRow "50" "I3" "B01" "A01" 0 5 5 "unsecured" "available" "N"]

/-- Same shape as `c3xRows` for the amended claim instance. -/
def c3wRows : List ReviewRow :=
  [mkRow "50" "I3W" "A01" "A01" 10 10 0 "unsecured" "available" "N",
   mkRow "50" "I3W" "B01" "A01" 0 5 5 "unsecured" "available" "N"]

/-- Concrete group that sets `move_recount` while the default count is
verified: the overwrite of the forced INVESTIGATE is observable. -/
def c4Rows : List ReviewRow :=
  [mkRow "50" "I4" "A01" "A01" 10 10 0 "unsecured" "available" "N",
   mkRow "50" "I4" "B01" "A01" 0 5 5 "unsecured" "available" "N"]

/-- Concrete non-primary-warehouse row with a nonzero delta. -/
def c5xRows : List ReviewRow :=
  [mkRow "40" "I5" "B01" "A01" 5 9 4 "unsecured" "available" "N"]

/-- Concrete non-primary-warehouse row for the amended claim instance. -/
def c5wRows : List ReviewRow :=
  [mkRow "40" "I5W" "B01" "A01" 5 9 4 "unsecured" "available" "N"]

/-- Concrete flagless group in ADJUST mode: one non-movable secondary
shortage, default exactly on book. -/
def c6xRows : List ReviewRow :=
  [mkRow "50" "I6" "A01" "A01" 10 10 0 "unsecured" "available" "N",
   mkRow "50" "I6" "B01" "A01" 5 3 (-2) "unsecured" "restricted" "N"]

/-- Same shape as `c6xRows` for the amended claim instance. -/
def c6wRows : List ReviewRow :=
  [mkRow "50" "I6W" "A01" "A01" 10 10 0 "unsecured" "available" "N",
   mkRow "50" "I6W" "B01" "A01" 5 3 (-2) "unsecured" "restricted" "N"]

/-- Concrete group whose only triggered flag is `move_recount`. -/
def c7xRows : List ReviewRow :=
  [mkRow "50" "I7" "A01" "A01" 10 10 0 "unsecured" "available" "N",
   mkRow "50" "I7" "B01" "A01" 0 5 5 "unsecured" "available" "N"]

/-- Concrete unflagged group for the amended confidence claim. -/
def c7wRows : List ReviewRow :=
  [mkRow "50" "I7W" "A01" "A01" 10 10 0 "unsecured" "available" "N"]

/-- Concrete group hitting the shortage heuristic: movable secondary
shortage while the default count is zero. -/
def c8xRows : List ReviewRow :=
  [mkRow "50" "I8" "A01" "A01" 10 0 (-10) "unsecured" "available" "N",
   mkRow "50" "I8" "B01" "A01" 5 3 (-2) "unsecured" "available" "N"]

/-- Concrete group with a plain (non-heuristic) secondary shortage. -/
def c8wRows : List ReviewRow :=
  [mkRow "50" "I8W" "A01" "A01" 10 10 0 "unsecured" "available" "N",
   mkRow "50" "I8W" "B01" "A01" 5 3 (-2) "unsecured" "restricted" "N"]

/-- Concrete eligible default counted above the ST01 tolerance band. -/
def c9wRows : List ReviewRow :=
  [mkRow "50" "I9W" "A01" "A01" 20 35 15 "unsecured" "available" "N",
   mkRow "50" "I9W" "ST01" "A01" 10 0 0 "unsecured" "available" "N"]

section Lemmas

/-- Membership in a list tagged with a per-element function determines
the tag. -/
theorem mem_map_pair {α β : Type} {rows : List α} {f : α → β} {r : α} {o : β}
    (h : (r, o) ∈ rows.map (fun x => (x, f x))) : r ∈ rows ∧ o = f r := by
  rcases List.mem_map.mp h with ⟨x, hx, he⟩
  injection he with h1 h2
  subst h1
  exact ⟨hx, h2.symm⟩

/-- Groups outside warehouse 50 take the guardrail path. -/
theorem processGroup_eq_guardrail (ut : Bool) (whs item lot : String)
    (rows : List ReviewRow) (hW : trimStr whs ≠ "50") :
    processGroup ut whs item lot rows = guardrailResult whs item lot rows := by
  unfold processGroup
  rw [if_pos hW]

/-- Warehouse-50 groups with a resolvable default location and a present
default row take the main reconciliation path. -/
theorem processGroup_eq_main (ut : Bool) (whs item lot : String) (rows : List ReviewRow)
    (dl : String) (hW : trimStr whs = "50") (hdl : resolveDefaultLoc rows = some dl)
    (hne : defaultRowsOf rows dl ≠ []) :
    processGroup ut whs item lot rows = mainResult ut whs item lot rows dl := by
  unfold processGroup
  rw [if_neg (fun h => h hW)]
  split
  · rename_i heq
    rw [heq] at hdl
    cases hdl
  · rename_i dl2 heq
    rw [heq] at hdl
    injection hdl with h2
    subst h2
    rw [if_neg hne]

/-- A row that is neither the default nor ST01 is in the secondary set. -/
theorem mem_secRows {rows : List ReviewRow} {dl : String} {r : ReviewRow}
    (hr : r ∈ rows) (hnd : r.location ≠ dl) (hns : r.location ≠ "ST01") :
    r ∈ secRowsOf rows dl := by
  unfold secRowsOf
  exact List.mem_filter.mpr ⟨hr, by simp [hnd, hns]⟩

/-- A secondary row whose outcome sets `move_recount` sets the group
flag. -/
theorem moveRecount_of_mem {ut : Bool} {whs item lot : String} {rows : List ReviewRow}
    {dl : String} {r : ReviewRow} (hr : r ∈ secRowsOf rows dl)
    (h : (reconcileSecondary ut whs item lot dl (securedVarOf rows)
            (defaultCountOf rows dl) r).moveRecount = true) :
    moveRecountOf ut whs item lot rows dl = true := by
  unfold moveRecountOf secOutsOf
  rw [List.any_eq_true]
  exact ⟨_, List.mem_map_of_mem _ hr, h⟩

/-- If the group flag is unset, no secondary row set it. -/
theorem moveRecount_false_of_group {ut : Bool} {whs item lot : String}
    {rows : List ReviewRow} {dl : String} {r : ReviewRow}
    (h : moveRecountOf ut whs item lot rows dl = false) (hr : r ∈ secRowsOf rows dl) :
    (reconcileSecondary ut whs item lot dl (securedVarOf rows)
       (defaultCountOf rows dl) r).moveRecount = false := by
  unfold moveRecountOf secOutsOf at h
  rw [List.any_eq_false] at h
  simpa using h _ (List.mem_map_of_mem _ hr)

/-- A positive-delta secondary row always yields INVESTIGATE, always
sets `move_recount`, and records the delta as the recommended
quantity (source lines 247-302). -/
theorem reconcileSecondary_pos (ut : Bool) (whs item lot dl : String) (sv : Bool)
    (dc : Int) (r : ReviewRow) (hpos : r.countQty - r.systemQty > 0) :
    (reconcileSecondary ut whs item lot dl sv dc r).out.recommendationType = "INVESTIGATE" ∧
    (reconcileSecondary ut whs item lot dl sv dc r).moveRecount = true ∧
    (reconcileSecondary ut whs item lot dl sv dc r).out.recommendedQty
      = r.countQty - r.systemQty := by
  unfold reconcileSecondary
  by_cases hcm : secCanMove r.allocationCategory = true <;>
    simp [hpos, hcm]

/-- In ADJUST mode a secondary row that does not set `move_recount`
contributes nothing to `transfers_in_default`. -/
theorem reconcileSecondary_tin_zero (whs item lot dl : String) (sv : Bool) (dc : Int)
    (r : ReviewRow)
    (h : (reconcileSecondary false whs item lot dl sv dc r).moveRecount = false) :
    (reconcileSecondary false whs item lot dl sv dc r).tin = 0 := by
  simp only [reconcileSecondary] at h ⊢
  by_cases h1 : r.countQty - r.systemQty > 0
  · rw [if_pos h1] at h ⊢
    by_cases h2 : secCanMove r.allocationCategory = true
    · rw [if_pos h2] at h
      simp at h
    · rw [if_neg h2]
  · rw [if_neg h1] at h ⊢
    by_cases h3 : r.countQty - r.systemQty < 0
    · rw [if_pos h3] at h ⊢
      by_cases h4 : secCanMove r.allocationCategory = true ∧ dc = 0
      · rw [if_pos h4] at h
        simp at h
      · rw [if_neg h4]
        simp
    · rw [if_neg h3]

end Lemmas

/-- C10: if the transfer_mode argument is empty or whitespace-only after
stripping and uppercasing, `apply_recommendations` proceeds in TRANSFER
mode (the Python `or "TRANSFER"` truthiness fallback at source line 103)
rather than the documented ADJUST default; any other value besides
TRANSFER and ADJUST raises the unsupported-mode error before any output
rows are produced. -/
theorem c10_transfer_mode (rows : List ReviewRow) (mode : String) :
    (upperStr (trimStr mode) = "" →
       applyRecommendations rows mode = applyRecommendations rows "TRANSFER") ∧
    (upperStr (trimStr mode) ≠ "" → upperStr (trimStr mode) ≠ "TRANSFER" → upperStr (trimStr mode) ≠ "ADJUST" →
       applyRecommendations rows mode
         = Except.error "Unsupported transfer_mode. Use TRANSFER or ADJUST.") := by
  constructor
  · intro h
    have hp : parseTransferMode mode = Except.ok true := by
      simp [parseTransferMode, h]
    have hq : parseTransferMode "TRANSFER" = Except.ok true := rfl
    unfold applyRecommendations
    rw [hp, hq]
  · intro h1 h2 h3
    have hp : parseTransferMode mode
        = Except.error "Unsupported transfer_mode. Use TRANSFER or ADJUST." := by
      simp [parseTransferMode, h1, h2, h3]
    unfold applyRecommendations
    rw [hp]

/-- C10 witness: the concrete invalid mode "bogus" is rejected. -/
theorem c10_transfer_mode_witness :
    applyRecommendations [] "bogus"
      = Except.error "Unsupported transfer_mode. Use TRANSFER or ADJUST." :=
  (c10_transfer_mode [] "bogus").2 (by decide) (by decide) (by decide)

/-- C5 counterexample: a warehouse-40 row with delta 4 receives
NO_ACTION with severity 0, not the ADJUST the claim predicts for a
nonzero delta. -/
theorem c5_counterexample :
    ((c5xRows.head?).map (fun r => r.countQty - r.systemQty)) = some 4 ∧
    (applyRecommendations c5xRows "ADJUST").map
        (fun res => res.rows.map
          (fun p => (p.2.recommendationType, p.2.confidence, p.2.severity)))
      = Except.ok [("NO_ACTION", "High", 0)] :=
  ⟨rfl, rfl⟩

/-- C5 amended: every row of a group outside warehouse 50 receives
NO_ACTION with confidence High and severity 0 regardless of its delta,
and no transfer suggestions or group severity are produced. -/
theorem c5_guardrail (ut : Bool) (whs item lot : String) (rows : List ReviewRow)
    (hW : trimStr whs ≠ "50") :
    (∀ p ∈ (processGroup ut whs item lot rows).rows,
       p.2.recommendationType = "NO_ACTION" ∧ p.2.confidence = "High" ∧ p.2.severity = 0) ∧
    (processGroup ut whs item lot rows).transfers = [] ∧
    (processGroup ut whs item lot rows).summary.severity = 0 := by
  rw [processGroup_eq_guardrail ut whs item lot rows hW]
  refine ⟨?_, rfl, rfl⟩
  intro p hp
  rcases List.mem_map.mp hp with ⟨x, _, he⟩
  rw [← he]
  exact ⟨rfl, rfl, rfl⟩

/-- C5 witness at a concrete warehouse-40 row. -/
theorem c5_guardrail_witness :
    ((processGroup false "40" "I5W" "" c5wRows).rows.get ⟨0, by decide⟩).2.recommendationType
      = "NO_ACTION" :=
  ((c5_guardrail false "40" "I5W" "" c5wRows (by decide)).1 _ (List.get_mem _ _ _)).1

/-- C4 (code bug): with the concrete group `c4Rows` the `move_recount`
flag is set, yet the default row A01 ends as ADJUST with remaining
adjustment -5: the unconditional default reconciliation of source lines
455-503 overwrites the forced INVESTIGATE of lines 389-398, contradicting
the comment at lines 387-388 that no default adjustment may be posted
while a move/recount is outstanding. -/
theorem c4_move_recount_overwritten :
    moveRecountOf false "50" "I4" "" c4Rows "A01" = true ∧
    (applyRecommendations c4Rows "ADJUST").map
        (fun res => res.rows.map
          (fun p => (p.1.location, p.2.recommendationType, p.2.remainingAdjustmentQty)))
      = Except.ok [("A01", "ADJUST", -5), ("B01", "INVESTIGATE", -5)] :=
  ⟨rfl, rfl⟩

/-- C1 counterexample: the secured secondary B01 with delta 3 receives
INVESTIGATE through the move-recount path, not the claimed ADJUST
override. -/
theorem c1_counterexample :
    (applyRecommendations c1xRows "ADJUST").map
        (fun res => res.rows.map (fun p => (p.1.location, p.2.recommendationType)))
      = Except.ok [("A01", "NO_ACTION"), ("B01", "INVESTIGATE")] ∧
    moveRecountOf false "50" "I1" "" c1xRows "A01" = true :=
  ⟨rfl, rfl⟩

/-- C2 counterexample: when the default-location value equals the buffer
code ST01, the ST01 row is the default row and receives ADJUST. -/
theorem c2_counterexample :
    resolveDefaultLoc (c2xRows.map normalizeRow) = some "ST01" ∧
    (applyRecommendations c2xRows "ADJUST").map
        (fun res => res.rows.map
          (fun p => (p.1.location, p.2.recommendationType, p.2.remainingAdjustmentQty)))
      = Except.ok [("ST01", "ADJUST", -10)] :=
  ⟨rfl, rfl⟩

/-- C3 counterexample: with the default verified (count 10) and zero
buffer stock, the overage row B01 still becomes INVESTIGATE with the
move-recount flag, not the TRANSFER the claim predicts in transfer
mode. -/
theorem c3_counterexample :
    defaultCountOf c3xRows "A01" = 10 ∧ sysST01Of c3xRows = 0 ∧
    (applyRecommendations c3xRows "TRANSFER").map
        (fun res => res.rows.map (fun p => (p.1.location, p.2.recommendationType)))
      = Except.ok [("A01", "ADJUST"), ("B01", "INVESTIGATE")] :=
  ⟨rfl, rfl, rfl⟩

/-- C6 counterexample: a flagless ADJUST-mode group where the balancing
law evaluates to -2 instead of 0. -/
theorem c6_counterexample :
    (processGroup false "50" "I6" "" c6xRows).summary.flags = "" ∧
    moveRecountOf false "50" "I6" "" c6xRows "A01" = false ∧
    secondaryDeltaSumOf c6xRows "A01"
        + ((processGroup false "50" "I6" "" c6xRows).summary.remainingAdjustmentQty.getD 0)
        + (transfersOutDefault - tinOf false "50" "I6" "" c6xRows "A01") = -2 ∧
    (-2 : Int) ≠ 0 :=
  ⟨rfl, rfl, rfl, by decide⟩

/-- C7 counterexample: a group whose only triggered flag is move-recount
keeps group confidence High, above the Med cap the claim requires. -/
theorem c7_counterexample :
    moveRecountOf false "50" "I7" "" c7xRows "A01" = true ∧
    (processGroup false "50" "I7" "" c7xRows).summary.confidence = "High" ∧
    confOrder "Med" < confOrder "High" :=
  ⟨rfl, rfl, by decide⟩

/-- C8 counterexample: an unsecured shortage row (delta -2) in transfer
mode receives INVESTIGATE via the replenishment heuristic, not the
claimed TRANSFER. -/
theorem c8_counterexample :
    ((c8xRows.get ⟨1, by decide⟩).countQty - (c8xRows.get ⟨1, by decide⟩).systemQty < 0) ∧
    (c8xRows.get ⟨1, by decide⟩).locationType = "unsecured" ∧
    (applyRecommendations c8xRows "TRANSFER").map
        (fun res => res.rows.map (fun p => (p.1.location, p.2.recommendationType)))
      = Except.ok [("A01", "INVESTIGATE"), ("B01", "INVESTIGATE")] :=
  ⟨by decide, rfl, rfl⟩

/-- A negative-delta secondary row that escapes the replenishment
heuristic follows the standard shortage rule (source lines 350-374). -/
theorem reconcileSecondary_neg_std (ut : Bool) (whs item lot dl : String) (sv : Bool)
    (dc : Int) (r : ReviewRow) (hneg : r.countQty - r.systemQty < 0)
    (hnh : ¬(secCanMove r.allocationCategory = true ∧ dc = 0)) :
    (reconcileSecondary ut whs item lot dl sv dc r).moveRecount = false ∧
    (reconcileSecondary ut whs item lot dl sv dc r).out.recommendationType
      = (if ut then "TRANSFER" else "ADJUST") ∧
    (reconcileSecondary ut whs item lot dl sv dc r).out.recommendedQty
      = -(r.countQty - r.systemQty) ∧
    (reconcileSecondary ut whs item lot dl sv dc r).out.severity = 90 ∧
    (ut = false → (reconcileSecondary ut whs item lot dl sv dc r).out.setLocationQtyTo
      = some r.countQty) ∧
    (ut = true → (reconcileSecondary ut whs item lot dl sv dc r).out.fromLocation = r.location ∧
      (reconcileSecondary ut whs item lot dl sv dc r).out.toLocation = dl) := by
  have h1 : ¬(r.countQty - r.systemQty > 0) := by omega
  simp only [reconcileSecondary, if_neg h1, if_pos hneg, if_neg hnh]
  cases ut <;> simp

/-- A negative-delta secondary row caught by the replenishment heuristic
(movable and unverified default, source lines 325-348). -/
theorem reconcileSecondary_neg_heur (ut : Bool) (whs item lot dl : String) (sv : Bool)
    (dc : Int) (r : ReviewRow) (hneg : r.countQty - r.systemQty < 0)
    (hh : secCanMove r.allocationCategory = true ∧ dc = 0) :
    (reconcileSecondary ut whs item lot dl sv dc r).moveRecount = true ∧
    (reconcileSecondary ut whs item lot dl sv dc r).out.recommendationType = "INVESTIGATE" ∧
    (reconcileSecondary ut whs item lot dl sv dc r).out.severity = 80 := by
  have h1 : ¬(r.countQty - r.systemQty > 0) := by omega
  simp only [reconcileSecondary, if_neg h1, if_pos hneg, if_pos hh]
  simp

/-- C1 (amended): a secured secondary row with positive delta is routed
to the move-and-recount INVESTIGATE path and sets the group flag; the
code contains no secured ADJUST override. -/
theorem c1_secured_secondary (ut : Bool) (whs item lot : String) (rows : List ReviewRow)
    (dl : String) (r : ReviewRow) (o : RowOut)
    (hW : trimStr whs = "50") (hdl : resolveDefaultLoc rows = some dl)
    (hne : defaultRowsOf rows dl ≠ [])
    (hmem : (r, o) ∈ (processGroup ut whs item lot rows).rows)
    (hnd : r.location ≠ dl) (hns : r.location ≠ "ST01")
    (_hsec : lowerStr (trimStr r.locationType) = "secured")
    (hpos : r.countQty - r.systemQty > 0) :
    o.recommendationType = "INVESTIGATE" ∧ moveRecountOf ut whs item lot rows dl = true := by
  rw [processGroup_eq_main ut whs item lot rows dl hW hdl hne] at hmem
  simp only [mainResult] at hmem
  obtain ⟨hr, ho⟩ := mem_map_pair hmem
  subst ho
  constructor
  · simp only [mainRowOut, if_neg hnd, if_neg hns, finalizeRow]
    exact (reconcileSecondary_pos ut whs item lot dl (securedVarOf rows)
      (defaultCountOf rows dl) r hpos).1
  · exact moveRecount_of_mem (mem_secRows hr hnd hns)
      (reconcileSecondary_pos ut whs item lot dl (securedVarOf rows)
        (defaultCountOf rows dl) r hpos).2.1

/-- C1 witness at the concrete secured overage row of `c1wRows`. -/
theorem c1_secured_secondary_witness :
    ((processGroup false "50" "I1W" "" c1wRows).rows.get ⟨1, by decide⟩).2.recommendationType
      = "INVESTIGATE" ∧ moveRecountOf false "50" "I1W" "" c1wRows "A01" = true :=
  c1_secured_secondary false "50" "I1W" "" c1wRows "A01" _ _ (by decide) rfl (by decide)
    (List.get_mem _ _ _) (by decide) (by decide) (by decide) (by decide)

/-- C3 (amended): every secondary row with positive delta sets the group
move-recount flag and receives INVESTIGATE carrying the delta as
recommended quantity — never TRANSFER or ADJUST, regardless of whether
the default count is verified or the buffer holds stock. -/
theorem c3_overage_investigate (ut : Bool) (whs item lot : String) (rows : List ReviewRow)
    (dl : String) (r : ReviewRow) (o : RowOut)
    (hW : trimStr whs = "50") (hdl : resolveDefaultLoc rows = some dl)
    (hne : defaultRowsOf rows dl ≠ [])
    (hmem : (r, o) ∈ (processGroup ut whs item lot rows).rows)
    (hnd : r.location ≠ dl) (hns : r.location ≠ "ST01")
    (hpos : r.countQty - r.systemQty > 0) :
    o.recommendationType = "INVESTIGATE" ∧
    o.recommendedQty = r.countQty - r.systemQty ∧
    moveRecountOf ut whs item lot rows dl = true := by
  rw [processGroup_eq_main ut whs item lot rows dl hW hdl hne] at hmem
  simp only [mainResult] at hmem
  obtain ⟨hr, ho⟩ := mem_map_pair hmem
  subst ho
  refine ⟨?_, ?_, ?_⟩
  · simp only [mainRowOut, if_neg hnd, if_neg hns, finalizeRow]
    exact (reconcileSecondary_pos ut whs item lot dl (securedVarOf rows)
      (defaultCountOf rows dl) r hpos).1
  · simp only [mainRowOut, if_neg hnd, if_neg hns, finalizeRow]
    exact (reconcileSecondary_pos ut whs item lot dl (securedVarOf rows)
      (defaultCountOf rows dl) r hpos).2.2
  · exact moveRecount_of_mem (mem_secRows hr hnd hns)
      (reconcileSecondary_pos ut whs item lot dl (securedVarOf rows)
        (defaultCountOf rows dl) r hpos).2.1

/-- C3 witness at the concrete movable overage row of `c3wRows`. -/
theorem c3_overage_investigate_witness :
    ((processGroup true "50" "I3W" "" c3wRows).rows.get ⟨1, by decide⟩).2.recommendationType
      = "INVESTIGATE" ∧ moveRecountOf true "50" "I3W" "" c3wRows "A01" = true := by
  have h := c3_overage_investigate true "50" "I3W" "" c3wRows "A01"
    ((processGroup true "50" "I3W" "" c3wRows).rows.get ⟨1, by decide⟩).1
    ((processGroup true "50" "I3W" "" c3wRows).rows.get ⟨1, by decide⟩).2
    (by decide) rfl (by decide) (List.get_mem _ _ _) (by decide) (by decide) (by decide)
  exact ⟨h.1, h.2.2⟩

/-- C2 (amended): a row whose location is the buffer code ST01 never
receives ADJUST or TRANSFER as long as the group's resolved default
location is not ST01 itself; it is marked secondary (the code has no
dedicated Buffer role) and skipped by the reconciliation loop.  When the
default-location value equals ST01 the ST01 row is treated as the
default row and can receive ADJUST. -/
theorem c2_buffer_rows (ut : Bool) (whs item lot : String) (rows : List ReviewRow)
    (r : ReviewRow) (o : RowOut)
    (hmem : (r, o) ∈ (processGroup ut whs item lot rows).rows)
    (hst : r.location = "ST01")
    (hdl : ∀ dl, resolveDefaultLoc rows = some dl → dl ≠ "ST01") :
    o.recommendationType ≠ "ADJUST" ∧ o.recommendationType ≠ "TRANSFER" := by
  unfold processGroup at hmem
  split at hmem
  · simp only [guardrailResult] at hmem
    obtain ⟨-, ho⟩ := mem_map_pair hmem
    subst ho
    exact ⟨by show ("NO_ACTION" : String) ≠ "ADJUST"; decide,
           by show ("NO_ACTION" : String) ≠ "TRANSFER"; decide⟩
  · split at hmem
    · simp only [defaultMissingResult] at hmem
      obtain ⟨-, ho⟩ := mem_map_pair hmem
      subst ho
      exact ⟨by show ("INVESTIGATE" : String) ≠ "ADJUST"; decide,
             by show ("INVESTIGATE" : String) ≠ "TRANSFER"; decide⟩
    · rename_i dl heq
      have hdlne : dl ≠ "ST01" := hdl dl heq
      split at hmem
      · simp only [defaultRowMissingResult] at hmem
        obtain ⟨-, ho⟩ := mem_map_pair hmem
        subst ho
        exact ⟨by show ("INVESTIGATE" : String) ≠ "ADJUST"; decide,
               by show ("INVESTIGATE" : String) ≠ "TRANSFER"; decide⟩
      · simp only [mainResult] at hmem
        obtain ⟨-, ho⟩ := mem_map_pair hmem
        subst ho
        have hnd : r.location ≠ dl := by
          rw [hst]
          exact fun hh => hdlne hh.symm
        simp only [mainRowOut, if_neg hnd, if_pos hst, finalizeRow]
        exact ⟨by show ("" : String) ≠ "ADJUST"; decide,
               by show ("" : String) ≠ "TRANSFER"; decide⟩

/-- C2 witness: the concrete ST01 buffer row of `c2wRows` takes no
corrective action. -/
theorem c2_buffer_rows_witness :
    ((processGroup false "50" "I2W" "" c2wRows).rows.get ⟨1, by decide⟩).2.recommendationType
      ≠ "ADJUST" := by
  have h := c2_buffer_rows false "50" "I2W" "" c2wRows
    ((processGroup false "50" "I2W" "" c2wRows).rows.get ⟨1, by decide⟩).1
    ((processGroup false "50" "I2W" "" c2wRows).rows.get ⟨1, by decide⟩).2
    (List.get_mem _ _ _) (by decide)
    (by
      intro dl hdl
      have h2 : (some "A01" : Option String) = some dl :=
        (rfl : resolveDefaultLoc c2wRows = some "A01").symm.trans hdl
      injection h2 with h3
      rw [← h3]
      decide)
  exact h.1

/-- C6 (amended): for a primary-warehouse group in ADJUST mode whose
move-recount flag is not set, nothing is accumulated into or out of the
default — the moved terms of the balancing law vanish — and every
secondary row with nonzero delta receives its own ADJUST down to its
counted quantity instead of being balanced against the default; the
net-zero law relating secondary deltas to the remaining adjustment does
not hold. -/
theorem c6_adjust_mode_independent (whs item lot : String) (rows : List ReviewRow)
    (dl : String)
    (hW : trimStr whs = "50") (hdl : resolveDefaultLoc rows = some dl)
    (hne : defaultRowsOf rows dl ≠ [])
    (hmr : moveRecountOf false whs item lot rows dl = false) :
    tinOf false whs item lot rows dl = 0 ∧ transfersOutDefault = 0 ∧
    (∀ p ∈ (processGroup false whs item lot rows).rows,
       p.1.location ≠ dl → p.1.location ≠ "ST01" → p.1.countQty - p.1.systemQty ≠ 0 →
       p.2.recommendationType = "ADJUST" ∧ p.2.setLocationQtyTo = some p.1.countQty) := by
  refine ⟨?_, rfl, ?_⟩
  · unfold tinOf
    apply List.sum_eq_zero
    intro x hx
    rcases List.mem_map.mp hx with ⟨oo, hoo, he⟩
    subst he
    unfold secOutsOf at hoo
    rcases List.mem_map.mp hoo with ⟨rr, hrr, he2⟩
    subst he2
    exact reconcileSecondary_tin_zero whs item lot dl (securedVarOf rows)
      (defaultCountOf rows dl) rr (moveRecount_false_of_group hmr hrr)
  · intro p hp
    obtain ⟨r, o⟩ := p
    dsimp only at hp ⊢
    intro hnd hns hdelta
    rw [processGroup_eq_main false whs item lot rows dl hW hdl hne] at hp
    simp only [mainResult] at hp
    obtain ⟨hr, ho⟩ := mem_map_pair hp
    subst ho
    have hmrow := moveRecount_false_of_group hmr (mem_secRows hr hnd hns)
    rcases lt_or_gt_of_ne hdelta with hneg | hpos
    · by_cases hh : secCanMove r.allocationCategory = true ∧ defaultCountOf rows dl = 0
      · have hcontra := (reconcileSecondary_neg_heur false whs item lot dl (securedVarOf rows)
          (defaultCountOf rows dl) r hneg hh).1
        rw [hmrow] at hcontra
        cases hcontra
      · have hstd := reconcileSecondary_neg_std false whs item lot dl (securedVarOf rows)
          (defaultCountOf rows dl) r hneg hh
        constructor
        · simp only [mainRowOut, if_neg hnd, if_neg hns, finalizeRow]
          simpa using hstd.2.1
        · simp only [mainRowOut, if_neg hnd, if_neg hns, finalizeRow]
          exact hstd.2.2.2.2.1 rfl
    · have hcontra := (reconcileSecondary_pos false whs item lot dl (securedVarOf rows)
        (defaultCountOf rows dl) r hpos).2.1
      rw [hmrow] at hcontra
      cases hcontra

/-- C6 witness at the concrete flagless shortage group `c6wRows`. -/
theorem c6_adjust_mode_independent_witness :
    tinOf false "50" "I6W" "" c6wRows "A01" = 0 ∧
    ((processGroup false "50" "I6W" "" c6wRows).rows.get ⟨1, by decide⟩).2.recommendationType
      = "ADJUST" := by
  have h := c6_adjust_mode_independent "50" "I6W" "" c6wRows "A01"
    (by decide) rfl (by decide) (by decide)
  refine ⟨h.1, ?_⟩
  have h2 := h.2.2 ((processGroup false "50" "I6W" "" c6wRows).rows.get ⟨1, by decide⟩)
    (List.get_mem _ _ _) (by decide) (by decide) (by decide)
  exact h2.1

/-- C7 (amended): the group confidence starts High and is capped to Med
exactly when one of the missing-master, secured-variance or
default-empty flags is triggered; the move-recount flag does not cap the
group confidence (it caps only the default row's own confidence). -/
theorem c7_confidence_caps (ut : Bool) (whs item lot : String) (rows : List ReviewRow)
    (dl : String) (hW : trimStr whs = "50") (hdl : resolveDefaultLoc rows = some dl)
    (hne : defaultRowsOf rows dl ≠ []) :
    (processGroup ut whs item lot rows).summary.confidence
      = (if missingMasterOf rows || securedVarOf rows || defaultEmptyOf rows dl
         then "Med" else "High") := by
  rw [processGroup_eq_main ut whs item lot rows dl hW hdl hne]
  show groupConfG rows dl = _
  unfold groupConfG groupConfOf
  generalize missingMasterOf rows = m
  generalize securedVarOf rows = s
  generalize defaultEmptyOf rows dl = d
  cases m <;> cases s <;> cases d <;> rfl

/-- C7 witness at the concrete unflagged group `c7wRows`. -/
theorem c7_confidence_caps_witness :
    (processGroup false "50" "I7W" "" c7wRows).summary.confidence
      = (if missingMasterOf c7wRows || securedVarOf c7wRows || defaultEmptyOf c7wRows "A01"
         then "Med" else "High") :=
  c7_confidence_caps false "50" "I7W" "" c7wRows "A01" (by decide) rfl (by decide)

/-- C8 (amended): a secondary row with negative delta that escapes the
replenishment heuristic (movable allocation with default counted zero)
receives TRANSFER of the absolute delta from this location to the
default when transfer mode is active, else ADJUST down to its count,
with row severity 90 before the group clip (so final severity at least
90); rows caught by the heuristic instead receive INVESTIGATE. -/
theorem c8_shortage_rows (ut : Bool) (whs item lot : String) (rows : List ReviewRow)
    (dl : String) (r : ReviewRow) (o : RowOut)
    (hW : trimStr whs = "50") (hdl : resolveDefaultLoc rows = some dl)
    (hne : defaultRowsOf rows dl ≠ [])
    (hmem : (r, o) ∈ (processGroup ut whs item lot rows).rows)
    (hnd : r.location ≠ dl) (hns : r.location ≠ "ST01")
    (hneg : r.countQty - r.systemQty < 0)
    (hnh : ¬(secCanMove r.allocationCategory = true ∧ defaultCountOf rows dl = 0)) :
    o.recommendationType = (if ut then "TRANSFER" else "ADJUST") ∧
    o.recommendedQty = -(r.countQty - r.systemQty) ∧
    90 ≤ o.severity ∧
    (ut = false → o.setLocationQtyTo = some r.countQty) ∧
    (ut = true → o.fromLocation = r.location ∧ o.toLocation = dl) := by
  rw [processGroup_eq_main ut whs item lot rows dl hW hdl hne] at hmem
  simp only [mainResult] at hmem
  obtain ⟨hr, ho⟩ := mem_map_pair hmem
  subst ho
  have hstd := reconcileSecondary_neg_std ut whs item lot dl (securedVarOf rows)
    (defaultCountOf rows dl) r hneg hnh
  simp only [mainRowOut, if_neg hnd, if_neg hns, finalizeRow]
  refine ⟨hstd.2.1, hstd.2.2.1, ?_, hstd.2.2.2.2.1, hstd.2.2.2.2.2⟩
  rw [hstd.2.2.2.1]
  exact le_max_left 90 _

/-- C8 witness at the concrete plain shortage row of `c8wRows` in
transfer mode. -/
theorem c8_shortage_rows_witness :
    ((processGroup true "50" "I8W" "" c8wRows).rows.get ⟨1, by decide⟩).2.recommendationType
      = (if true then "TRANSFER" else "ADJUST") :=
  (c8_shortage_rows true "50" "I8W" "" c8wRows "A01"
    ((processGroup true "50" "I8W" "" c8wRows).rows.get ⟨1, by decide⟩).1
    ((processGroup true "50" "I8W" "" c8wRows).rows.get ⟨1, by decide⟩).2
    (by decide) rfl (by decide) (List.get_mem _ _ _)
    (by decide) (by decide) (by decide) (by decide)).1

/-- C9: for an eligible default row with nonzero counted quantity, the
engine computes the ST01 tolerance band with minimum `default_after` and
maximum `default_after + buffer`, adjusts down by the shortage below the
minimum, adjusts up by the overage above the maximum, and otherwise
leaves a zero remaining adjustment with NO_ACTION. -/
theorem c9_tolerance_band (ut : Bool) (whs item lot : String) (rows : List ReviewRow)
    (dl : String)
    (hW : trimStr whs = "50") (hdl : resolveDefaultLoc rows = some dl)
    (hne : defaultRowsOf rows dl ≠ [])
    (hel : defaultEligibleOf rows dl = true)
    (hcnt : defaultCountOf rows dl ≠ 0) :
    (processGroup ut whs item lot rows).summary.remainingAdjustmentQty
      = some (if defaultCountOf rows dl < defaultAfterOf ut whs item lot rows dl then
                -(defaultAfterOf ut whs item lot rows dl - defaultCountOf rows dl)
              else if defaultCountOf rows dl
                  > defaultAfterOf ut whs item lot rows dl + sysST01Of rows then
                defaultCountOf rows dl
                  - (defaultAfterOf ut whs item lot rows dl + sysST01Of rows)
              else 0) ∧
    (∀ p ∈ (processGroup ut whs item lot rows).rows, p.1.location = dl →
       p.2.recommendationType
         = (if defaultCountOf rows dl < defaultAfterOf ut whs item lot rows dl
              ∨ defaultCountOf rows dl > defaultAfterOf ut whs item lot rows dl + sysST01Of rows
            then "ADJUST" else "NO_ACTION")) := by
  have hrem : remainingOf ut whs item lot rows dl
      = (if defaultCountOf rows dl < defaultAfterOf ut whs item lot rows dl then
           -(defaultAfterOf ut whs item lot rows dl - defaultCountOf rows dl)
         else if defaultCountOf rows dl
             > defaultAfterOf ut whs item lot rows dl + sysST01Of rows then
           defaultCountOf rows dl - (defaultAfterOf ut whs item lot rows dl + sysST01Of rows)
         else 0) := by
    unfold remainingOf
    rw [if_neg hcnt, if_pos hel]
    by_cases h1 : defaultCountOf rows dl < defaultAfterOf ut whs item lot rows dl
    · rw [if_pos h1, if_pos h1]
      omega
    · rw [if_neg h1, if_neg h1]
  rw [processGroup_eq_main ut whs item lot rows dl hW hdl hne]
  constructor
  · show some (remainingOf ut whs item lot rows dl) = _
    rw [hrem]
  · intro p hp
    obtain ⟨r, o⟩ := p
    dsimp only at hp ⊢
    intro hloc
    simp only [mainResult] at hp
    obtain ⟨hr, ho⟩ := mem_map_pair hp
    subst ho
    simp only [mainRowOut, if_pos hloc, finalizeRow, defaultRowOut]
    rw [if_neg hcnt]
    by_cases h1 : defaultCountOf rows dl < defaultAfterOf ut whs item lot rows dl
    · have hne0 : remainingOf ut whs item lot rows dl ≠ 0 := by
        rw [hrem, if_pos h1]
        omega
      rw [if_pos hne0, if_pos (Or.inl h1)]
    · by_cases h2 : defaultCountOf rows dl
          > defaultAfterOf ut whs item lot rows dl + sysST01Of rows
      · have hne0 : remainingOf ut whs item lot rows dl ≠ 0 := by
          rw [hrem, if_neg h1, if_pos h2]
          omega
        rw [if_pos hne0, if_pos (Or.inr h2)]
      · have he0 : remainingOf ut whs item lot rows dl = 0 := by
          rw [hrem, if_neg h1, if_neg h2]
        rw [if_neg (show ¬remainingOf ut whs item lot rows dl ≠ 0 from fun hh => hh he0),
            if_neg (show ¬(defaultCountOf rows dl < defaultAfterOf ut whs item lot rows dl
                ∨ defaultCountOf rows dl
                    > defaultAfterOf ut whs item lot rows dl + sysST01Of rows) from
              fun hh => hh.elim (fun a => h1 a) (fun b => h2 b))]

/-- C9 witness: the concrete eligible default of `c9wRows`, counted 35
against a band of 20 to 30, leaves remaining adjustment 5. -/
theorem c9_tolerance_band_witness :
    (processGroup false "50" "I9W" "" c9wRows).summary.remainingAdjustmentQty
      = some (if defaultCountOf c9wRows "A01"
                  < defaultAfterOf false "50" "I9W" "" c9wRows "A01" then
                -(defaultAfterOf false "50" "I9W" "" c9wRows "A01"
                    - defaultCountOf c9wRows "A01")
              else if defaultCountOf c9wRows "A01"
                  > defaultAfterOf false "50" "I9W" "" c9wRows "A01" + sysST01Of c9wRows then
                defaultCountOf c9wRows "A01"
                  - (defaultAfterOf false "50" "I9W" "" c9wRows "A01" + sysST01Of c9wRows)
              else 0) :=
  (c9_tolerance_band false "50" "I9W" "" c9wRows "A01"
    (by decide) rfl (by decide) (by decide) (by decide)).1

end CycleCount
